import Mathlib

/-!
# Verification of the maptoposter rendering core

A shallow embedding of the layer cache, road classification, layer builder and
raster post-processing stage of the `maptoposter` repository
(`src/maptoposter/render.py`, `render_constants.py`, `styles.py`,
`postprocess.py`), together with theorems settling the specification claims.

Float-valued style parameters are modelled as rationals (only order
comparisons and exact constants matter to the claims).  External library
primitives (numpy's seeded Gaussian sampler, PIL's per-pixel alpha compositing,
enhancement and texture loading, the float vignette mask) are abstracted as an
explicit record of deterministic functions; every theorem about the
post-processor quantifies over that record.
-/

namespace MapToPoster

/-! ## Constants from `render_constants.py` -/

/-- `ROAD_WIDTH_MOTORWAY = 1.2` (render_constants.py:52). -/
def ROAD_WIDTH_MOTORWAY : ℚ := 12/10

/-- `ROAD_WIDTH_PRIMARY = 1.0` (render_constants.py:53). -/
def ROAD_WIDTH_PRIMARY : ℚ := 1

/-- `ROAD_WIDTH_SECONDARY = 0.8` (render_constants.py:54). -/
def ROAD_WIDTH_SECONDARY : ℚ := 8/10

/-- `ROAD_WIDTH_TERTIARY = 0.6` (render_constants.py:55). -/
def ROAD_WIDTH_TERTIARY : ℚ := 6/10

/-- `ROAD_WIDTH_RESIDENTIAL = 0.4` (render_constants.py:56). -/
def ROAD_WIDTH_RESIDENTIAL : ℚ := 4/10

/-- `ROAD_WIDTH_PATH = 0.2` (render_constants.py:57). -/
def ROAD_WIDTH_PATH : ℚ := 2/10

/-- `ROAD_WIDTH_DEFAULT = 0.4` (render_constants.py:58). -/
def ROAD_WIDTH_DEFAULT : ℚ := 4/10

/-- `GRADIENT_HEIGHT_FRACTION = 0.25` (render_constants.py:49). -/
def GRADIENT_HEIGHT_FRACTION : ℚ := 1/4

/-! ## `ZOrder` constants (render.py:237-247) -/

namespace ZOrder

/-- `ZOrder.WATER = 1`. -/
def WATER : ℚ := 1

/-- `ZOrder.WATERWAYS = 2` (rivers/streams rendered as lines above water polygons). -/
def WATERWAYS : ℚ := 2

/-- `ZOrder.PARKS = 3`. -/
def PARKS : ℚ := 3

/-- `ZOrder.PATHS = 3.5` (footpaths rendered below roads). -/
def PATHS : ℚ := 7/2

/-- `ZOrder.ROADS = 4`. -/
def ROADS : ℚ := 4

/-- `ZOrder.RAILWAYS = 8` (the source comment reads "Railways rendered above roads"). -/
def RAILWAYS : ℚ := 8

/-- `ZOrder.GRADIENT = 10`. -/
def GRADIENT : ℚ := 10

/-- `ZOrder.TEXT = 100`. -/
def TEXT : ℚ := 100

end ZOrder

/-! ## Generic string-keyed dictionary as an association list

Python `dict` with string keys; `dictGet` is `d.get(key)` (first match;
well-formed dictionaries have nodup keys). -/

/-- `d.get(key)` on a string-keyed dict modelled as an association list. -/
def dictGet {β : Type} : List (String × β) → String → Option β
  | [], _ => none
  | (k, v) :: rest, key => if k = key then some v else dictGet rest key

/-- `d.pop(key, None)`: remove the (first) binding of `key`. -/
def dictErase {β : Type} : List (String × β) → String → List (String × β)
  | [], _ => []
  | (k, v) :: rest, key => if k = key then rest else (k, v) :: dictErase rest key

/-! ## `StyleConfig` (styles.py:35-74)

Field defaults mirror the dataclass defaults; float fields become rationals. -/

/-- Styling configuration for rendering (`styles.py:35-74`). -/
structure StyleConfig where
  theme_name : Option String := none
  road_core_widths : List (String × ℚ) :=
    [("motorway", ROAD_WIDTH_MOTORWAY), ("primary", ROAD_WIDTH_PRIMARY),
     ("secondary", ROAD_WIDTH_SECONDARY), ("tertiary", ROAD_WIDTH_TERTIARY),
     ("default", ROAD_WIDTH_DEFAULT)]
  road_casing_widths : List (String × ℚ) :=
    [("motorway", 18/10), ("primary", 15/10), ("secondary", 12/10),
     ("tertiary", 9/10), ("default", 6/10)]
  road_glow_strength : ℚ := 0
  gradient_strength : ℚ := GRADIENT_HEIGHT_FRACTION
  typography_tracking : Nat := 2
  texture_strength : ℚ := 0
  grain_strength : ℚ := 0
  vignette_strength : ℚ := 0
  color_grading_strength : ℚ := 0
  paper_texture_path : Option String := none
  seed : Option Int := none
  enable_layer_cache : Bool := false
deriving DecidableEq

/-- `StyleConfig()` with all dataclass defaults (all effect strengths zero). -/
def defaultStyleConfig : StyleConfig := {}

/-- The `"noir"` preset from `PRESET_STYLES` (styles.py:78-87):
glow 0.2, tracking 3, grain 0.08, vignette 0.15. -/
def noirPresetStyle : StyleConfig :=
  { theme_name := some "noir", road_glow_strength := 2/10,
    typography_tracking := 3, grain_strength := 8/100,
    vignette_strength := 15/100 }

/-! ## Raster post-processing (`postprocess.py`)

Images are modelled in the alpha-capable 4-channel form that
`apply_raster_effects` converts to on entry: a width, a height and a row-major
list of RGBA byte quadruples. -/

/-- One RGBA pixel: four byte channels. -/
def Pixel : Type := Nat × Nat × Nat × Nat

instance : DecidableEq Pixel := by unfold Pixel; infer_instance

/-- A 4-channel raster image (the `RGBA` form used throughout postprocess.py). -/
structure RGBAImage where
  width : Nat
  height : Nat
  pixels : List Pixel
deriving DecidableEq

/-- External-library primitives used by postprocess.py, abstracted as
deterministic functions:

* `normal seed stddev i` — the `i`-th sample of
  `np.random.default_rng(seed).normal(0, stddev, shape)` (postprocess.py:87-88);
  fully determined by the seed, as numpy guarantees for a seeded generator.
* `vignetteMask w h strength i` — the byte `alpha[i]` of the float radial mask
  computed at postprocess.py:100-107.
* `compositePx dst src` — PIL `Image.alpha_composite`, per pixel.
* `enhance factor img` — `ImageEnhance.Color(...).enhance(factor)` followed by
  `ImageEnhance.Contrast(...).enhance(factor)` (postprocess.py:122-124).
* `loadTexture path w h` — `Image.open(path).convert("RGBA").resize((w, h))`
  (postprocess.py:114). -/
structure EffectPrims where
  normal : Int → ℚ → Nat → Int
  vignetteMask : Nat → Nat → ℚ → Nat → Nat
  compositePx : Pixel → Pixel → Pixel
  enhance : ℚ → RGBAImage → RGBAImage
  loadTexture : String → Nat → Nat → RGBAImage

/-- `np.clip(noise + 128, 0, 255)` applied to one integer sample. -/
def clip255 (n : Int) : Nat := (min (max n 0) 255).toNat

/-- Python `int(q)` for a nonnegative rational (truncation = floor). -/
def ratToByteTrunc (q : ℚ) : Nat := (⌊q⌋).toNat

/-- `Image.alpha_composite(base, overlay)` (pixelwise via the PIL primitive). -/
def alphaCompositeImg (prims : EffectPrims) (base overlay : RGBAImage) : RGBAImage :=
  { base with pixels := List.zipWith prims.compositePx base.pixels overlay.pixels }

/-- `_apply_grain` (postprocess.py:86-95): seeded Gaussian noise per pixel
(`default_rng(seed)`; `seed = None` draws fresh OS entropy, modelled by the
explicit `entropy` argument), `clip(noise + 128, 0, 255)`, replicated across
RGB, composited with `alpha = int(255 * min(strength, 1.0) * 0.35)`. -/
def applyGrain (prims : EffectPrims) (entropy : Int) (img : RGBAImage)
    (strength : ℚ) (seed : Option Int) : RGBAImage :=
  let effSeed := seed.getD entropy
  let alphaByte := ratToByteTrunc (255 * min strength 1 * (35/100))
  let noisePixels := (List.range (img.height * img.width)).map fun i =>
    let n := clip255 (prims.normal effSeed (255 * strength) i + 128)
    ((n, n, n, alphaByte) : Pixel)
  alphaCompositeImg prims img
    { width := img.width, height := img.height, pixels := noisePixels }

/-- `_apply_vignette` (postprocess.py:98-110): a black layer whose alpha is
`255 - mask_alpha`, composited over the image. -/
def applyVignette (prims : EffectPrims) (img : RGBAImage) (strength : ℚ) : RGBAImage :=
  let vigPixels := (List.range (img.height * img.width)).map fun i =>
    ((0, 0, 0, 255 - prims.vignetteMask img.width img.height strength i) : Pixel)
  alphaCompositeImg prims img
    { width := img.width, height := img.height, pixels := vigPixels }

/-- `alpha.point(lambda value: int(value * strength))` on one texture pixel. -/
def scaleAlphaPx (strength : ℚ) (p : Pixel) : Pixel :=
  (p.1, p.2.1, p.2.2.1, ratToByteTrunc ((p.2.2.2 : ℚ) * strength))

/-- `_apply_texture` (postprocess.py:113-118): load and resize the texture,
scale its alpha channel by the strength, composite. -/
def applyTexture (prims : EffectPrims) (img : RGBAImage) (path : String)
    (strength : ℚ) : RGBAImage :=
  let tex := prims.loadTexture path img.width img.height
  let texScaled := { tex with pixels := tex.pixels.map (scaleAlphaPx strength) }
  alphaCompositeImg prims img texScaled

/-- `_apply_color_grading` (postprocess.py:121-125):
`factor = 1 + min(strength, 1.0) * 0.1`, then color and contrast enhancement. -/
def applyColorGrading (prims : EffectPrims) (img : RGBAImage) (strength : ℚ) : RGBAImage :=
  prims.enhance (1 + min strength 1 * (1/10)) img

/-- `image.convert("RGBA")` (postprocess.py:70); images in the model are
already in 4-channel form, so the conversion is the identity on pixel data. -/
def convertRGBA (img : RGBAImage) : RGBAImage := img

/-- Python truthiness of `style.paper_texture_path` (postprocess.py:75):
`None` and the empty string are falsy. -/
def pathTruthy : Option String → Bool
  | none => false
  | some p => !(p = "")

/-- `PostProcessResult` exactly as the code declares it (postprocess.py:46-51):
a frozen dataclass holding only the processed image. -/
structure PostProcessResult where
  image : RGBAImage
deriving DecidableEq

/-- `needs_raster_postprocessing` (postprocess.py:53-65). -/
def needs_raster_postprocessing (fmt : String) (style : StyleConfig) : Bool :=
  if fmt ≠ "png" then false
  else
    [style.grain_strength, style.vignette_strength, style.texture_strength,
     style.color_grading_strength].any fun v => decide (0 < v)

/-- `apply_raster_effects` (postprocess.py:68-83): convert to RGBA, then apply
grain, vignette, texture and color grading in that fixed order, each gated by
its strength (texture also by a truthy texture path).  Returns the processed
image — and nothing else — exactly as the source does. -/
def apply_raster_effects (prims : EffectPrims) (entropy : Int)
    (image : RGBAImage) (style : StyleConfig) : RGBAImage :=
  let result := convertRGBA image
  let result := if 0 < style.grain_strength then
      applyGrain prims entropy result style.grain_strength style.seed
    else result
  let result := if 0 < style.vignette_strength then
      applyVignette prims result style.vignette_strength
    else result
  let result := if 0 < style.texture_strength ∧ pathTruthy style.paper_texture_path then
      applyTexture prims result
        (style.paper_texture_path.getD "") style.texture_strength
    else result
  let result := if 0 < style.color_grading_strength then
      applyColorGrading prims result style.color_grading_strength
    else result
  result

/-- Modelled from the spec: the ordered list of effect names the apply
operation is required to report (`PostProcessResult.effects_applied` in spec
§3 and §4.5) — exactly the effects whose strength is `> 0`, texture also
requiring a texture path.  This tracking is missing from the code: the
dataclass at postprocess.py:46-51 holds only the image. -/
def specEffectsApplied (style : StyleConfig) : List String :=
  (if 0 < style.grain_strength then ["grain"] else []) ++
  (if 0 < style.vignette_strength then ["vignette"] else []) ++
  (if 0 < style.texture_strength ∧ pathTruthy style.paper_texture_path then
      ["texture"] else []) ++
  (if 0 < style.color_grading_strength then ["color_grading"] else [])

/-! ## `LayerCache` (render.py:77-216)

The cached payload ("bundle") is abstracted to an identity tag plus the byte
estimate `_estimate_entry_size` would report for it, and the `"cached_at"`
entry the cache writes into the payload dict on insertion (`0` models a
missing/falsy timestamp; `time.time()` is always positive).  The cache state
mirrors the source's two index structures — the key→payload dict `_cache` and
the insertion-order list `_order` — plus the statistics counters. -/

/-- A cached layer bundle: abstract payload identity, its estimated byte size,
and the `"cached_at"` timestamp written by `LayerCache.set`. -/
structure Bundle where
  data : Nat
  size : Nat
  cached_at : Nat := 0
deriving DecidableEq

/-- The statistics counters initialized in `_init_cache` (render.py:99-105). -/
structure CacheStats where
  hits : Nat
  misses : Nat
  evictions : Nat
  expired : Nat
  memory_evictions : Nat
deriving DecidableEq

/-- The `LayerCache` state: `_cache` (dict), `_order` (insertion order),
`_stats`. -/
structure LayerCache where
  cache : List (String × Bundle)
  order : List String
  stats : CacheStats
deriving DecidableEq

namespace LayerCache

/-- `MAX_ENTRIES = 4` (render.py:83). -/
def MAX_ENTRIES : Nat := 4

/-- `MAX_BYTES = 500 * 1024 * 1024` (render.py:84). -/
def MAX_BYTES : Nat := 500 * 1024 * 1024

/-- `TTL_SECONDS = 3600` (render.py:85). -/
def TTL_SECONDS : Nat := 3600

/-- `_init_cache` (render.py:94-105): empty dict, empty order, zero counters.
`reset` reinstalls exactly this state. -/
def initCache : LayerCache :=
  { cache := [], order := [], stats := ⟨0, 0, 0, 0, 0⟩ }

/-- `LayerCache.reset` (render.py:107-111): reinitialize the singleton state. -/
def reset (_c : LayerCache) : LayerCache := initCache

/-- `_get_total_size` (render.py:134-143): sum of per-entry size estimates. -/
def totalSize (cache : List (String × Bundle)) : Nat :=
  (cache.map fun kv => kv.2.size).sum

/-- `get` (render.py:145-167): absent key counts a miss; a present entry whose
truthy `cached_at` is older than the TTL counts as expired and is removed from
both the dict and the order list; otherwise a hit returning the bundle. -/
def get (c : LayerCache) (key : String) (now : Nat) : Option Bundle × LayerCache :=
  match dictGet c.cache key with
  | none =>
      (none, { c with stats := { c.stats with misses := c.stats.misses + 1 } })
  | some b =>
      if b.cached_at ≠ 0 ∧ TTL_SECONDS < now - b.cached_at then
        (none,
         { cache := dictErase c.cache key,
           order := c.order.erase key,
           stats := { c.stats with expired := c.stats.expired + 1 } })
      else
        (some b, { c with stats := { c.stats with hits := c.stats.hits + 1 } })

/-- The count-eviction loop of `set` (render.py:183-187):
`while len(order) >= MAX_ENTRIES`, pop the oldest key from the order list,
drop it from the dict, count a count-eviction. -/
def evictCountLoop :
    List (String × Bundle) → List String → Nat →
      List (String × Bundle) × List String × Nat
  | cache, [], n => (cache, [], n)
  | cache, k :: rest, n =>
      if MAX_ENTRIES ≤ (k :: rest).length then
        evictCountLoop (dictErase cache k) rest (n + 1)
      else (cache, k :: rest, n)

/-- The memory-eviction loop of `set` (render.py:189-195):
`while total size > MAX_BYTES and order nonempty`, evict the oldest remaining
entry, count a memory-eviction, recompute the total size. -/
def evictMemLoop :
    List (String × Bundle) → List String → Nat →
      List (String × Bundle) × List String × Nat
  | cache, [], n => (cache, [], n)
  | cache, k :: rest, n =>
      if MAX_BYTES < totalSize cache then
        evictMemLoop (dictErase cache k) rest (n + 1)
      else (cache, k :: rest, n)

/-- `set` (render.py:169-199): no-op when the key is already present (first
writer wins); otherwise run the count-eviction loop then the memory-eviction
loop, stamp the payload with a fresh `cached_at` and append at the back. -/
def set (c : LayerCache) (key : String) (payload : Bundle) (now : Nat) : LayerCache :=
  if (dictGet c.cache key).isSome then c
  else
    let r1 := evictCountLoop c.cache c.order 0
    let r2 := evictMemLoop r1.1 r1.2.1 0
    { cache := r2.1 ++ [(key, { payload with cached_at := now })],
      order := r2.2.1 ++ [key],
      stats := { c.stats with
        evictions := c.stats.evictions + r1.2.2,
        memory_evictions := c.stats.memory_evictions + r2.2.2 } }

/-- `clear` (render.py:201-211): empty both index structures, return the
number of entries that were present; the statistics dict is untouched. -/
def clear (c : LayerCache) : Nat × LayerCache :=
  (c.cache.length, { cache := [], order := [], stats := c.stats })

end LayerCache

/-- A sequence of `set` calls: each element is (key, payload, clock value). -/
def setMany (c : LayerCache) : List (String × Bundle × Nat) → LayerCache
  | [] => c
  | (k, b, t) :: rest => setMany (c.set k b t) rest

/-! ## Road classification (render.py:250-272, 629-675) -/

/-- `HIGHWAY_CLASS_MAP` (render.py:250-272). -/
def HIGHWAY_CLASS_MAP : List (String × String) :=
  [("motorway", "motorway"), ("motorway_link", "motorway"),
   ("trunk", "primary"), ("trunk_link", "primary"),
   ("primary", "primary"), ("primary_link", "primary"),
   ("secondary", "secondary"), ("secondary_link", "secondary"),
   ("tertiary", "tertiary"), ("tertiary_link", "tertiary"),
   ("residential", "residential"), ("living_street", "residential"),
   ("unclassified", "residential"),
   ("footway", "path"), ("path", "path"), ("bridleway", "path"),
   ("cycleway", "path"), ("pedestrian", "path"), ("track", "path"),
   ("steps", "path")]

/-- An OSM `highway` tag value: `str | list[str] | None` (render.py:59). -/
inductive OSMHighwayValue
  | strv (s : String)
  | listv (l : List String)
  | nonev
deriving DecidableEq

/-- `_normalize_highway` (render.py:629-645): first element of a list (or
`"unclassified"` when empty), `"unclassified"` for `None`, strings as-is. -/
def normalizeHighway : OSMHighwayValue → String
  | .strv s => s
  | .listv [] => "unclassified"
  | .listv (h :: _) => h
  | .nonev => "unclassified"

/-- `HIGHWAY_CLASS_MAP.get(normalized_value, "default")` — the semantic road
class of a tag value.  Used identically by `classify_edge` (render.py:650) and
by the `road_class` column computation in `build_layers` (render.py:1140-1145,
where values missing from the map become NaN and `fillna("default")`). -/
def roadClassOf (h : OSMHighwayValue) : String :=
  (dictGet HIGHWAY_CLASS_MAP (normalizeHighway h)).getD "default"

/-- A theme dict (spec §6): required `bg`, `water`, `parks` and per-road-class
color keys; optional `railway` and `road_path` keys. -/
structure Theme where
  bg : String
  water : String
  parks : String
  road_motorway : String
  road_primary : String
  road_secondary : String
  road_tertiary : String
  road_residential : String
  road_default : String
  railway : Option String := none
  road_path : Option String := none
deriving DecidableEq

/-- `RoadStyle` (render.py:529-538). -/
structure RoadStyle where
  road_class : String
  core_color : String
  core_width : ℚ
  casing_color : String
  casing_width : ℚ
  glow_strength : ℚ := 0
deriving DecidableEq

/-- `PosterRenderer.classify_edge` (render.py:647-675): normalize the tag,
map it to a road class, resolve the core color from the theme, the core width
from `style.road_core_widths` (default `ROAD_WIDTH_DEFAULT`), the casing width
from `style.road_casing_widths` (default: the resolved core width), glow for
motorway/primary only; casing color is the theme background. -/
def classify_edge (theme : Theme) (style : StyleConfig)
    (highway : OSMHighwayValue) : RoadStyle :=
  let road_class := roadClassOf highway
  let color :=
    if road_class = "motorway" then theme.road_motorway
    else if road_class = "primary" then theme.road_primary
    else if road_class = "secondary" then theme.road_secondary
    else if road_class = "tertiary" then theme.road_tertiary
    else if road_class = "residential" then theme.road_residential
    else theme.road_default
  let core_width := (dictGet style.road_core_widths road_class).getD ROAD_WIDTH_DEFAULT
  let casing_width := (dictGet style.road_casing_widths road_class).getD core_width
  let glow := if road_class = "motorway" ∨ road_class = "primary" then
      style.road_glow_strength else 0
  { road_class := road_class, core_color := color, core_width := core_width,
    casing_color := theme.bg, casing_width := casing_width,
    glow_strength := glow }

/-! ## Layer building (render.py:923-1224)

The embedding covers the layer-assembly stage of `PosterRenderer.build_layers`
(render.py:1060-1224): it takes the projected bundle — exactly the data the
cache-hit branch reuses verbatim (render.py:951-959) — and emits the ordered
`RenderLayer` list.  The preceding projection stage (render.py:960-1058) is a
sequence of external osmnx/geopandas calls and is outside the embedding.
GeoDataFrames are abstracted to their row lists; each row keeps an identifier
plus the attribute column the assembly code reads. -/

/-- A linestyle dash pattern `(offset, (on, off))` as passed to matplotlib. -/
structure LineStylePat where
  offset : Nat
  dashOn : Nat
  dashOff : Nat
deriving DecidableEq

/-- `(0, (1, 2))` — the dotted pattern for footpaths (render.py:1175). -/
def dottedPat : LineStylePat := ⟨0, 1, 2⟩

/-- `(0, (5, 3))` — the dashed pattern for railways (render.py:1219). -/
def dashedPat : LineStylePat := ⟨0, 5, 3⟩

/-- The style dict of a `RenderLayer`: the keys the source ever sets. -/
structure LayerStyle where
  color : Option String := none
  linewidth : Option ℚ := none
  linestyle : Option LineStylePat := none
  glow : Option ℚ := none
  facecolor : Option String := none
  edgecolor : Option String := none
deriving DecidableEq

/-- `RenderLayer` (render.py:275-283): name, zorder, geometry rows (abstracted
to their row identifiers), legacy graph field, style dict. -/
structure RenderLayer where
  name : String
  zorder : ℚ
  gdf : List String := []
  graph : Option Unit := none
  style : LayerStyle := {}
deriving DecidableEq

/-- The flattened edge table `edges_gdf`: whether a `highway` column exists,
and per edge a row identifier with its `highway` value. -/
structure EdgeTable where
  hasHighwayColumn : Bool
  rows : List (String × OSMHighwayValue)
deriving DecidableEq

/-- The linear-waterways frame: whether a `waterway` column exists, and per
row an identifier with its `waterway` value. -/
structure WaterwaysFrame where
  hasWaterwayColumn : Bool
  rows : List (String × String)
deriving DecidableEq

/-- The projected bundle consumed by the layer-assembly stage — the same
fields `build_layers` reads from a cache hit (render.py:951-959). -/
structure BuildData where
  water_polys : Option (List String)
  waterways : Option WaterwaysFrame
  parks_polys : Option (List String)
  railways_lines : Option (List String)
  edges : EdgeTable
  crop_xlim : ℚ × ℚ
  crop_ylim : ℚ × ℚ
deriving DecidableEq

/-- The water-polygon layer block (render.py:1060-1068). -/
def waterLayers (theme : Theme) (wp : Option (List String)) : List RenderLayer :=
  match wp with
  | none => []
  | some w =>
      if w.isEmpty then []
      else [{ name := "water", zorder := ZOrder.WATER, gdf := w,
              style := { facecolor := some theme.water, edgecolor := some "none" } }]

/-- `waterway_widths = {"river": 1.5, "canal": 1.2, "stream": 0.8}`
(render.py:1073-1077), iterated in dict insertion order. -/
def WATERWAY_WIDTHS : List (String × ℚ) :=
  [("river", 15/10), ("canal", 12/10), ("stream", 8/10)]

/-- `default_width = 0.8` for other waterway types (render.py:1078). -/
def WATERWAY_DEFAULT_WIDTH : ℚ := 8/10

/-- The linear-waterways layer block (render.py:1070-1123): with a `waterway`
column, one layer per known type present plus a layer for the rest; without
the column, a single layer at the default width. -/
def waterwaysLayers (theme : Theme) (ww : Option WaterwaysFrame) : List RenderLayer :=
  match ww with
  | none => []
  | some f =>
      if f.rows.isEmpty then []
      else if f.hasWaterwayColumn then
        (WATERWAY_WIDTHS.filterMap fun tw =>
          let typeRows := f.rows.filter fun r => r.2 = tw.1
          if typeRows.isEmpty then none
          else some { name := "waterways_" ++ tw.1, zorder := ZOrder.WATERWAYS,
                      gdf := typeRows.map Prod.fst,
                      style := { color := some theme.water, linewidth := some tw.2 } }) ++
        (let others := f.rows.filter fun r =>
            !((WATERWAY_WIDTHS.map Prod.fst).contains r.2)
         if others.isEmpty then []
         else [{ name := "waterways_other", zorder := ZOrder.WATERWAYS,
                 gdf := others.map Prod.fst,
                 style := { color := some theme.water,
                            linewidth := some WATERWAY_DEFAULT_WIDTH } }])
      else
        [{ name := "waterways", zorder := ZOrder.WATERWAYS,
           gdf := f.rows.map Prod.fst,
           style := { color := some theme.water,
                      linewidth := some WATERWAY_DEFAULT_WIDTH } }]

/-- The park-polygon layer block (render.py:1125-1133). -/
def parksLayers (theme : Theme) (pp : Option (List String)) : List RenderLayer :=
  match pp with
  | none => []
  | some p =>
      if p.isEmpty then []
      else [{ name := "parks", zorder := ZOrder.PARKS, gdf := p,
              style := { facecolor := some theme.parks, edgecolor := some "none" } }]

/-- `class_order` (render.py:1147-1155). -/
def CLASS_ORDER : List String :=
  ["path", "default", "residential", "tertiary", "secondary", "primary", "motorway"]

/-- The road layer block (render.py:1156-1205): for each class in
`class_order` (with its enumeration index), filter the edges of that class;
if any, classify the first one and emit — for `"path"` a single dotted core
layer at `ZOrder.PATHS`, otherwise a casing layer at `ZOrder.ROADS + index*2`
and a core layer at `ZOrder.ROADS + index*2 + 1`. -/
def roadLayersOf (theme : Theme) (style : StyleConfig)
    (rows : List (String × OSMHighwayValue)) : List RenderLayer :=
  (CLASS_ORDER.enum.map fun irc =>
    let classEdges := rows.filter fun r => roadClassOf r.2 = irc.2
    match classEdges with
    | [] => []
    | e :: _ =>
        let s := classify_edge theme style e.2
        if irc.2 = "path" then
          [{ name := "roads_" ++ irc.2 ++ "_core", zorder := ZOrder.PATHS,
             gdf := classEdges.map Prod.fst,
             style := { color := some (theme.road_path.getD s.core_color),
                        linewidth := some s.core_width,
                        linestyle := some dottedPat, glow := some 0 } }]
        else
          [{ name := "roads_" ++ irc.2 ++ "_casing",
             zorder := ZOrder.ROADS + (irc.1 : ℚ) * 2,
             gdf := classEdges.map Prod.fst,
             style := { color := some s.casing_color,
                        linewidth := some s.casing_width, glow := some 0 } },
           { name := "roads_" ++ irc.2 ++ "_core",
             zorder := ZOrder.ROADS + (irc.1 : ℚ) * 2 + 1,
             gdf := classEdges.map Prod.fst,
             style := { color := some s.core_color,
                        linewidth := some s.core_width,
                        glow := some s.glow_strength } }]).flatten

/-- The railway layer block (render.py:1207-1222): a dashed line layer at
`ZOrder.RAILWAYS`, colored `theme.get("railway", theme.get("road_secondary",
"#555555"))` (`road_secondary` is a required theme key in the model, so the
final literal fallback is unreachable). -/
def railwaysLayers (theme : Theme) (rl : Option (List String)) : List RenderLayer :=
  match rl with
  | none => []
  | some r =>
      if r.isEmpty then []
      else [{ name := "railways", zorder := ZOrder.RAILWAYS, gdf := r,
              style := { color := some (theme.railway.getD theme.road_secondary),
                         linewidth := some (8/10),
                         linestyle := some dashedPat } }]

/-- The layer-assembly stage of `PosterRenderer.build_layers`
(render.py:1060-1224): append water, waterways and parks layers; if the edge
table is empty or lacks a `highway` column, log and return early with the crop
bounds (render.py:1136-1138) — before the road and railway blocks run;
otherwise append the road layers and then the railway layer. -/
def buildLayersFrom (theme : Theme) (style : StyleConfig) (d : BuildData) :
    List RenderLayer × (ℚ × ℚ) × (ℚ × ℚ) :=
  let pre := waterLayers theme d.water_polys ++ waterwaysLayers theme d.waterways ++
             parksLayers theme d.parks_polys
  if d.edges.rows.isEmpty || !d.edges.hasHighwayColumn then
    (pre, d.crop_xlim, d.crop_ylim)
  else
    (pre ++ roadLayersOf theme style d.edges.rows ++
       railwaysLayers theme d.railways_lines,
     d.crop_xlim, d.crop_ylim)

/-! ## Concrete fixtures used by counterexamples and witnesses -/

/-- A concrete theme with all required keys and an explicit railway color. -/
def theme0 : Theme :=
  { bg := "#111111", water := "#224466", parks := "#225522",
    road_motorway := "#ffaa00", road_primary := "#ff8800",
    road_secondary := "#cccccc", road_tertiary := "#bbbbbb",
    road_residential := "#999999", road_default := "#888888",
    railway := some "#777777" }

/-- A one-pixel RGBA test image. -/
def img0 : RGBAImage := ⟨1, 1, [((128, 128, 128, 255) : Pixel)]⟩

/-- A concrete instantiation of the external-library primitives. -/
def prims0 : EffectPrims :=
  { normal := fun _ _ _ => 0,
    vignetteMask := fun _ _ _ _ => 255,
    compositePx := fun _ src => src,
    enhance := fun _ i => i,
    loadTexture := fun _ w h => ⟨w, h, []⟩ }

/-- A style with a fixed grain seed and positive grain strength. -/
def seededStyle : StyleConfig :=
  { defaultStyleConfig with seed := some 7, grain_strength := 1/2 }

/-- A style whose core width map has `motorway` but whose casing width map is
empty — exercising the casing-width fallback. -/
def partialWidthStyle : StyleConfig :=
  { road_core_widths := [("motorway", 12/10)], road_casing_widths := [] }

/-- A style whose casing width map has `residential` but whose core width map
is empty — exercising the core-width fallback. -/
def casingOnlyStyle : StyleConfig :=
  { road_core_widths := [], road_casing_widths := [("residential", 7/10)] }

/-- Build input with a single residential edge and railway lines present. -/
def residentialRailData : BuildData :=
  { water_polys := none, waterways := none, parks_polys := none,
    railways_lines := some ["r1"],
    edges := { hasHighwayColumn := true, rows := [("e1", .strv "residential")] },
    crop_xlim := (0, 1), crop_ylim := (0, 1) }

/-- Build input with water, parks and railway features but an empty edge
table. -/
def emptyEdgesData : BuildData :=
  { water_polys := some ["w1"], waterways := none, parks_polys := some ["p1"],
    railways_lines := some ["r1"],
    edges := { hasHighwayColumn := true, rows := [] },
    crop_xlim := (0, 1), crop_ylim := (0, 1) }

/-- First of five distinct-key insertions for the FIFO bound scenario. -/
def demoFirst : String × Bundle × Nat := ("k1", ⟨1, 0, 0⟩, 10)

/-- The remaining four distinct-key insertions. -/
def demoRest : List (String × Bundle × Nat) :=
  [("k2", ⟨2, 0, 0⟩, 20), ("k3", ⟨3, 0, 0⟩, 30),
   ("k4", ⟨4, 0, 0⟩, 40), ("k5", ⟨5, 0, 0⟩, 50)]

/-- A cache state holding one stale entry (cached at 100). -/
def cacheExpFix : LayerCache :=
  { cache := [("k1", ⟨1, 0, 100⟩)], order := ["k1"], stats := ⟨0, 0, 0, 0, 0⟩ }

/-- A cache state holding one fresh entry (cached at 100). -/
def cacheFreshFix : LayerCache :=
  { cache := [("k2", ⟨2, 0, 100⟩)], order := ["k2"], stats := ⟨0, 0, 0, 0, 0⟩ }

/-! ## Theorems -/

/-- **C9** — `needs_raster_postprocessing` returns true iff the output format
is the raster format `"png"` and at least one of the four effect strengths
(grain, vignette, texture, color grading) is strictly positive. -/
theorem c9_needs_processing_iff (fmt : String) (style : StyleConfig) :
    needs_raster_postprocessing fmt style = true ↔
      (fmt = "png" ∧ (0 < style.grain_strength ∨ 0 < style.vignette_strength ∨
        0 < style.texture_strength ∨ 0 < style.color_grading_strength)) := by
  by_cases h : fmt = "png"
  · simp [needs_raster_postprocessing, h, List.any, or_assoc]
  · simp [needs_raster_postprocessing, h]

/-- **C8** — applying the post-processing operation with all four effect
strengths at zero returns the input image unchanged (no effect branch runs,
and the RGBA conversion is the identity on pixel data). -/
theorem c8_zero_strengths_identity (prims : EffectPrims) (entropy : Int)
    (img : RGBAImage) (style : StyleConfig)
    (hg : style.grain_strength = 0) (hv : style.vignette_strength = 0)
    (ht : style.texture_strength = 0) (hc : style.color_grading_strength = 0) :
    apply_raster_effects prims entropy img style = img := by
  simp [apply_raster_effects, convertRGBA, hg, hv, ht, hc]

/-- Witness for C8 at the all-defaults style (all strengths zero). -/
theorem c8_zero_strengths_identity_witness :
    apply_raster_effects prims0 0 img0 defaultStyleConfig = img0 :=
  c8_zero_strengths_identity prims0 0 img0 defaultStyleConfig rfl rfl rfl rfl

/-- **C7** — with a fixed (non-absent) seed and fixed strengths, two calls of
the post-processing operation on the same input agree exactly: the entropy a
seedless run would draw (the only nondeterminism channel) is never consulted,
since the grain noise stream is fully determined by the seed and strength. -/
theorem c7_seeded_apply_deterministic (prims : EffectPrims) (img : RGBAImage)
    (style : StyleConfig) (s : Int) (hseed : style.seed = some s)
    (e1 e2 : Int) :
    apply_raster_effects prims e1 img style =
      apply_raster_effects prims e2 img style := by
  simp only [apply_raster_effects, applyGrain, hseed, Option.getD_some]

/-- Witness for C7: seed 7, two different entropy draws, equal output. -/
theorem c7_seeded_apply_deterministic_witness :
    apply_raster_effects prims0 0 img0 seededStyle =
      apply_raster_effects prims0 99 img0 seededStyle :=
  c7_seeded_apply_deterministic prims0 img0 seededStyle 7 rfl 0 99

/-- **C2** (code bug) — the spec, the repository's tests and the caller in
`PosterRenderer.render` all require `apply` to return a `PostProcessResult`
carrying the ordered applied-effects list and the grain seed; the code's
`PostProcessResult` holds only the image (so two results with equal images are
equal — there is no room for the diagnostics), while for the `"noir"` preset
the spec-required effects list is the nonempty `["grain", "vignette"]`. -/
theorem c2_postprocess_result_lacks_diagnostics :
    specEffectsApplied noirPresetStyle = ["grain", "vignette"] ∧
    specEffectsApplied noirPresetStyle ≠ [] ∧
    ∀ r s : PostProcessResult, r.image = s.image → r = s := by
  refine ⟨?_, ?_, ?_⟩
  · norm_num [specEffectsApplied, noirPresetStyle, pathTruthy]
  · norm_num [specEffectsApplied, noirPresetStyle, pathTruthy]
    decide
  · intro r s h
    cases r
    cases s
    simpa using h

/-- Witness for C2's record-degeneracy conjunct at a concrete image. -/
theorem c2_postprocess_result_lacks_diagnostics_witness :
    PostProcessResult.mk img0 = PostProcessResult.mk img0 :=
  c2_postprocess_result_lacks_diagnostics.2.2 ⟨img0⟩ ⟨img0⟩ rfl

/-- **C10** — `clear` empties the dict and the insertion-order list, returns
the number of entries that were present, and leaves every statistics counter
untouched; only `reset` (which reinstalls `_init_cache`'s state) returns the
counters to zero. -/
theorem c10_clear_preserves_stats (c : LayerCache) :
    (c.clear).1 = c.cache.length ∧
    (c.clear).2.cache = [] ∧
    (c.clear).2.order = [] ∧
    (c.clear).2.stats = c.stats ∧
    (LayerCache.reset c).stats = ⟨0, 0, 0, 0, 0⟩ :=
  ⟨rfl, rfl, rfl, rfl, rfl⟩

/-- `dictGet` misses exactly the keys outside the dict's key list. -/
theorem dictGet_eq_none_iff {β : Type} (l : List (String × β)) (k : String) :
    dictGet l k = none ↔ k ∉ l.map Prod.fst := by
  induction l with
  | nil => simp [dictGet]
  | cons hd tl ih =>
    obtain ⟨k1, v1⟩ := hd
    simp only [dictGet, List.map_cons, List.mem_cons]
    by_cases h : k1 = k
    · simp [h]
    · rw [if_neg h, ih]
      constructor
      · intro hnot hor
        rcases hor with h1 | h2
        · exact h h1.symm
        · exact hnot h2
      · intro hnot h2
        exact hnot (Or.inr h2)

/-- Erasing the head key of a dict drops exactly that first binding. -/
theorem dictErase_map_fst_cons {β : Type} (l : List (String × β)) (k : String)
    (ko : List String) (h : l.map Prod.fst = k :: ko) :
    (dictErase l k).map Prod.fst = ko := by
  cases l with
  | nil => simp at h
  | cons hd tl =>
    obtain ⟨k1, v1⟩ := hd
    simp only [List.map_cons, List.cons.injEq] at h
    obtain ⟨h1, h2⟩ := h
    simp [dictErase, h1, h2]

/-- After erasing a key from a nodup-keyed dict, lookup of that key misses. -/
theorem dictGet_dictErase_self {β : Type} (l : List (String × β)) (k : String)
    (hnd : (l.map Prod.fst).Nodup) : dictGet (dictErase l k) k = none := by
  induction l with
  | nil => rfl
  | cons hd tl ih =>
    obtain ⟨k1, v1⟩ := hd
    simp only [List.map_cons, List.nodup_cons] at hnd
    obtain ⟨hhd, htl⟩ := hnd
    by_cases h : k1 = k
    · rw [dictErase, if_pos h, dictGet_eq_none_iff]
      rw [h] at hhd
      exact hhd
    · rw [dictErase, if_neg h, dictGet, if_neg h]
      exact ih htl

/-- The count-eviction loop of `set` keeps the dict keyed like the order list,
returns a suffix of the order list, and always leaves at most
`MAX_ENTRIES - 1` entries. -/
theorem evictCountLoop_spec (order : List String) :
    ∀ (cache : List (String × Bundle)) (n : Nat),
      cache.map Prod.fst = order →
      ((LayerCache.evictCountLoop cache order n).1.map Prod.fst =
          (LayerCache.evictCountLoop cache order n).2.1 ∧
        (LayerCache.evictCountLoop cache order n).2.1 <:+ order ∧
        (LayerCache.evictCountLoop cache order n).2.1.length ≤
          LayerCache.MAX_ENTRIES - 1) := by
  induction order with
  | nil =>
    intro cache n h
    simp only [LayerCache.evictCountLoop]
    exact ⟨h, List.suffix_refl _, by simp [LayerCache.MAX_ENTRIES]⟩
  | cons k rest ih =>
    intro cache n h
    by_cases hc : LayerCache.MAX_ENTRIES ≤ (k :: rest).length
    · have hstep : LayerCache.evictCountLoop cache (k :: rest) n =
          LayerCache.evictCountLoop (dictErase cache k) rest (n + 1) := by
        show (if LayerCache.MAX_ENTRIES ≤ (k :: rest).length then
            LayerCache.evictCountLoop (dictErase cache k) rest (n + 1)
          else (cache, k :: rest, n)) = _
        rw [if_pos hc]
      rw [hstep]
      have h2 := dictErase_map_fst_cons cache k rest h
      obtain ⟨a1, a2, a3⟩ := ih (dictErase cache k) (n + 1) h2
      exact ⟨a1, a2.trans (List.suffix_cons k rest), a3⟩
    · have hstep : LayerCache.evictCountLoop cache (k :: rest) n =
          (cache, k :: rest, n) := by
        show (if LayerCache.MAX_ENTRIES ≤ (k :: rest).length then
            LayerCache.evictCountLoop (dictErase cache k) rest (n + 1)
          else (cache, k :: rest, n)) = _
        rw [if_neg hc]
      rw [hstep]
      refine ⟨h, List.suffix_refl _, ?_⟩
      simp only [List.length_cons, LayerCache.MAX_ENTRIES] at hc ⊢
      omega

/-- The memory-eviction loop of `set` keeps the dict keyed like the order
list and returns a suffix of the order list. -/
theorem evictMemLoop_spec (order : List String) :
    ∀ (cache : List (String × Bundle)) (n : Nat),
      cache.map Prod.fst = order →
      ((LayerCache.evictMemLoop cache order n).1.map Prod.fst =
          (LayerCache.evictMemLoop cache order n).2.1 ∧
        (LayerCache.evictMemLoop cache order n).2.1 <:+ order) := by
  induction order with
  | nil =>
    intro cache n h
    simp only [LayerCache.evictMemLoop]
    exact ⟨h, List.suffix_refl _⟩
  | cons k rest ih =>
    intro cache n h
    by_cases hc : LayerCache.MAX_BYTES < LayerCache.totalSize cache
    · have hstep : LayerCache.evictMemLoop cache (k :: rest) n =
          LayerCache.evictMemLoop (dictErase cache k) rest (n + 1) := by
        show (if LayerCache.MAX_BYTES < LayerCache.totalSize cache then
            LayerCache.evictMemLoop (dictErase cache k) rest (n + 1)
          else (cache, k :: rest, n)) = _
        rw [if_pos hc]
      rw [hstep]
      have h2 := dictErase_map_fst_cons cache k rest h
      obtain ⟨a1, a2⟩ := ih (dictErase cache k) (n + 1) h2
      exact ⟨a1, a2.trans (List.suffix_cons k rest)⟩
    · have hstep : LayerCache.evictMemLoop cache (k :: rest) n =
          (cache, k :: rest, n) := by
        show (if LayerCache.MAX_BYTES < LayerCache.totalSize cache then
            LayerCache.evictMemLoop (dictErase cache k) rest (n + 1)
          else (cache, k :: rest, n)) = _
        rw [if_neg hc]
      rw [hstep]
      exact ⟨h, List.suffix_refl _⟩

/-- Characterization of `set` on an absent key: both eviction loops run, then
the stamped payload is appended at the back of both index structures. -/
theorem set_of_absent (c : LayerCache) (k : String) (b : Bundle) (t : Nat)
    (habs : dictGet c.cache k = none) :
    c.set k b t =
      { cache := (LayerCache.evictMemLoop
            (LayerCache.evictCountLoop c.cache c.order 0).1
            (LayerCache.evictCountLoop c.cache c.order 0).2.1 0).1 ++
            [(k, { b with cached_at := t })],
        order := (LayerCache.evictMemLoop
            (LayerCache.evictCountLoop c.cache c.order 0).1
            (LayerCache.evictCountLoop c.cache c.order 0).2.1 0).2.1 ++ [k],
        stats := { c.stats with
          evictions := c.stats.evictions +
            (LayerCache.evictCountLoop c.cache c.order 0).2.2,
          memory_evictions := c.stats.memory_evictions +
            (LayerCache.evictMemLoop
              (LayerCache.evictCountLoop c.cache c.order 0).1
              (LayerCache.evictCountLoop c.cache c.order 0).2.1 0).2.2 } } := by
  unfold LayerCache.set
  rw [if_neg (by simp [habs])]

/-- `set` on an absent key keeps the dict keyed like the order list, appends
the key behind a suffix of the previous order (evictions only drop from the
front), and respects the `MAX_ENTRIES` bound. -/
theorem set_spec (c : LayerCache) (k : String) (b : Bundle) (t : Nat)
    (hwf : c.cache.map Prod.fst = c.order)
    (habs : dictGet c.cache k = none) :
    ((c.set k b t).cache.map Prod.fst = (c.set k b t).order ∧
      (∃ s, s <:+ c.order ∧ (c.set k b t).order = s ++ [k]) ∧
      (c.set k b t).order.length ≤ LayerCache.MAX_ENTRIES) := by
  obtain ⟨c1, c2, c3⟩ := evictCountLoop_spec c.order c.cache 0 hwf
  obtain ⟨m1, m2⟩ := evictMemLoop_spec (LayerCache.evictCountLoop c.cache c.order 0).2.1
    (LayerCache.evictCountLoop c.cache c.order 0).1 0 c1
  rw [set_of_absent c k b t habs]
  refine ⟨?_, ⟨_, m2.trans c2, rfl⟩, ?_⟩
  · simp [List.map_append, m1]
  · have h4 := m2.length_le
    simp only [List.length_append, List.length_cons, List.length_nil,
      LayerCache.MAX_ENTRIES] at *
    omega

/-- Invariant carried through a sequence of `set` calls with keys disjoint
from the already-processed key list `done`: dict and order stay in sync, the
order list is a suffix of all keys processed so far (FIFO eviction from the
front only), and the entry count stays within `MAX_ENTRIES`. -/
theorem setMany_inv (l : List (String × Bundle × Nat)) :
    ∀ (c : LayerCache) (done : List String),
      c.cache.map Prod.fst = c.order →
      c.order <:+ done →
      c.order.length ≤ LayerCache.MAX_ENTRIES →
      (done ++ l.map fun e => e.1).Nodup →
      ((setMany c l).cache.map Prod.fst = (setMany c l).order ∧
        (setMany c l).order <:+ (done ++ l.map fun e => e.1) ∧
        (setMany c l).order.length ≤ LayerCache.MAX_ENTRIES) := by
  induction l with
  | nil =>
    intro c done h1 h2 h3 _
    simpa [setMany] using ⟨h1, h2, h3⟩
  | cons e tl ih =>
    intro c done h1 h2 h3 hnd
    have hkdone : e.1 ∉ done := by
      intro hmem
      have hd := (List.nodup_append.mp hnd).2.2
      exact hd hmem (List.mem_cons_self _ _)
    have hkorder : e.1 ∉ c.order := fun hmem => hkdone (h2.subset hmem)
    have habs : dictGet c.cache e.1 = none := by
      rw [dictGet_eq_none_iff, h1]
      exact hkorder
    obtain ⟨s1, s2, s3⟩ := set_spec c e.1 e.2.1 e.2.2 h1 habs
    obtain ⟨sfx, hsfx, horder⟩ := s2
    have hsuf2 : (c.set e.1 e.2.1 e.2.2).order <:+ done ++ [e.1] := by
      rw [horder]
      obtain ⟨u, hu⟩ := hsfx.trans h2
      exact ⟨u, by rw [← List.append_assoc, hu]⟩
    have hnd2 : ((done ++ [e.1]) ++ tl.map fun x => x.1).Nodup := by
      have : done ++ ((e :: tl).map fun x => x.1) =
          (done ++ [e.1]) ++ tl.map fun x => x.1 := by
        simp
      rw [← this]
      exact hnd
    have hrec := ih (c.set e.1 e.2.1 e.2.2) (done ++ [e.1]) s1 hsuf2 s3 hnd2
    have hsm : setMany c (e :: tl) = setMany (c.set e.1 e.2.1 e.2.2) tl := by
      obtain ⟨k0, b0, t0⟩ := e
      rfl
    rw [hsm]
    refine ⟨hrec.1, ?_, hrec.2.2⟩
    have heq : (done ++ [e.1]) ++ (tl.map fun x => x.1) =
        done ++ ((e :: tl).map fun x => x.1) := by simp
    rw [← heq]
    exact hrec.2.1

/-- **C3** — inserting `MAX_ENTRIES + 1` pairwise-distinct keys into an
initially empty cache leaves at most `MAX_ENTRIES` entries in both index
structures, the oldest-inserted key is absent, eviction is FIFO by insertion
order (the surviving order list is a suffix of the insertion sequence), and a
`set` on an already-present key leaves the cache unchanged. -/
theorem c3_set_fifo_bounds
    (first : String × Bundle × Nat) (rest : List (String × Bundle × Nat))
    (hnodup : ((first :: rest).map fun e => e.1).Nodup)
    (hlen : (first :: rest).length = LayerCache.MAX_ENTRIES + 1)
    (c : LayerCache) (k : String) (b : Bundle) (t : Nat)
    (hpresent : (dictGet c.cache k).isSome = true) :
    ((setMany LayerCache.initCache (first :: rest)).order.length ≤
        LayerCache.MAX_ENTRIES ∧
      (setMany LayerCache.initCache (first :: rest)).cache.length ≤
        LayerCache.MAX_ENTRIES ∧
      dictGet (setMany LayerCache.initCache (first :: rest)).cache first.1 = none ∧
      (setMany LayerCache.initCache (first :: rest)).order <:+
        ((first :: rest).map fun e => e.1) ∧
      c.set k b t = c) := by
  have hinv := setMany_inv (first :: rest) LayerCache.initCache []
    rfl (List.suffix_refl _) (by simp [LayerCache.initCache])
    (by simpa using hnodup)
  simp only [List.nil_append] at hinv
  obtain ⟨hsync, hsuf, hlen4⟩ := hinv
  have hclen : (setMany LayerCache.initCache (first :: rest)).cache.length ≤
      LayerCache.MAX_ENTRIES := by
    have := congrArg List.length hsync
    simp only [List.length_map] at this
    omega
  have habsfirst :
      dictGet (setMany LayerCache.initCache (first :: rest)).cache first.1 = none := by
    rw [dictGet_eq_none_iff, hsync]
    have hsuf2 : (setMany LayerCache.initCache (first :: rest)).order <:+
        rest.map fun e => e.1 := by
      rcases List.suffix_cons_iff.mp (by simpa using hsuf) with heq | hs
      · exfalso
        have hlenmap : ((first :: rest).map fun e => e.1).length =
            LayerCache.MAX_ENTRIES + 1 := by
          simp only [List.length_map]
          exact hlen
        have := congrArg List.length heq
        simp only [List.length_map, List.length_cons] at this hlenmap hlen4
        omega
      · exact hs
    intro hmem
    have hfirstmem : first.1 ∈ rest.map fun e => e.1 := hsuf2.subset hmem
    have hnd := hnodup
    simp only [List.map_cons, List.nodup_cons] at hnd
    exact hnd.1 hfirstmem
  refine ⟨hlen4, hclen, habsfirst, hsuf, ?_⟩
  unfold LayerCache.set
  rw [if_pos hpresent]

/-- Witness for C3: five concrete distinct keys into the empty cache, and a
repeated `set` on a cache already holding the key. -/
theorem c3_set_fifo_bounds_witness :
    ((setMany LayerCache.initCache (demoFirst :: demoRest)).order.length ≤
        LayerCache.MAX_ENTRIES ∧
      (setMany LayerCache.initCache (demoFirst :: demoRest)).cache.length ≤
        LayerCache.MAX_ENTRIES ∧
      dictGet (setMany LayerCache.initCache (demoFirst :: demoRest)).cache
        demoFirst.1 = none ∧
      (setMany LayerCache.initCache (demoFirst :: demoRest)).order <:+
        ((demoFirst :: demoRest).map fun e => e.1) ∧
      cacheFreshFix.set "k2" ⟨9, 0, 0⟩ 99 = cacheFreshFix) :=
  c3_set_fifo_bounds demoFirst demoRest (by decide) (by decide)
    cacheFreshFix "k2" ⟨9, 0, 0⟩ 99 (by decide)

/-- **C4** — `get` semantics: an absent key is a counted miss; a present entry
with a truthy timestamp older than the TTL is counted as expired and removed
from both the dict and the insertion order; a fresh present entry is a counted
hit returning the stored bundle unchanged, with the index structures
untouched. -/
theorem c4_get_semantics
    (c1 : LayerCache) (k1 : String) (now1 : Nat)
    (h1 : dictGet c1.cache k1 = none)
    (c2 : LayerCache) (k2 : String) (now2 : Nat) (b2 : Bundle)
    (h2 : dictGet c2.cache k2 = some b2)
    (h2ts : b2.cached_at ≠ 0)
    (h2old : LayerCache.TTL_SECONDS < now2 - b2.cached_at)
    (h2nd : (c2.cache.map Prod.fst).Nodup)
    (c3 : LayerCache) (k3 : String) (now3 : Nat) (b3 : Bundle)
    (h3 : dictGet c3.cache k3 = some b3)
    (h3fresh : now3 - b3.cached_at ≤ LayerCache.TTL_SECONDS) :
    (c1.get k1 now1 =
        (none, { c1 with stats := { c1.stats with misses := c1.stats.misses + 1 } }) ∧
      ((c2.get k2 now2).1 = none ∧
        (c2.get k2 now2).2.cache = dictErase c2.cache k2 ∧
        dictGet (c2.get k2 now2).2.cache k2 = none ∧
        (c2.get k2 now2).2.order = c2.order.erase k2 ∧
        (c2.get k2 now2).2.stats =
          { c2.stats with expired := c2.stats.expired + 1 }) ∧
      c3.get k3 now3 =
        (some b3, { c3 with stats := { c3.stats with hits := c3.stats.hits + 1 } })) := by
  have hget2 : c2.get k2 now2 =
      (none, { cache := dictErase c2.cache k2, order := c2.order.erase k2,
               stats := { c2.stats with expired := c2.stats.expired + 1 } }) := by
    unfold LayerCache.get
    rw [h2]
    exact if_pos ⟨h2ts, h2old⟩
  have hcond3 : ¬ (b3.cached_at ≠ 0 ∧ LayerCache.TTL_SECONDS < now3 - b3.cached_at) :=
    fun hh => absurd hh.2 (Nat.not_lt.mpr h3fresh)
  refine ⟨?_, ?_, ?_⟩
  · unfold LayerCache.get
    rw [h1]
  · rw [hget2]
    exact ⟨rfl, rfl, dictGet_dictErase_self c2.cache k2 h2nd, rfl, rfl⟩
  · unfold LayerCache.get
    rw [h3]
    exact if_neg hcond3

/-- Witness for C4: the empty cache (miss), a stale one-entry cache queried
after the TTL (expired), and a fresh one-entry cache (hit). -/
theorem c4_get_semantics_witness :
    (LayerCache.initCache.get "kx" 0 =
        (none, { LayerCache.initCache with stats :=
          { LayerCache.initCache.stats with
              misses := LayerCache.initCache.stats.misses + 1 } }) ∧
      ((cacheExpFix.get "k1" 4000).1 = none ∧
        (cacheExpFix.get "k1" 4000).2.cache = dictErase cacheExpFix.cache "k1" ∧
        dictGet (cacheExpFix.get "k1" 4000).2.cache "k1" = none ∧
        (cacheExpFix.get "k1" 4000).2.order = cacheExpFix.order.erase "k1" ∧
        (cacheExpFix.get "k1" 4000).2.stats =
          { cacheExpFix.stats with expired := cacheExpFix.stats.expired + 1 }) ∧
      cacheFreshFix.get "k2" 200 =
        (some ⟨2, 0, 100⟩, { cacheFreshFix with stats :=
          { cacheFreshFix.stats with hits := cacheFreshFix.stats.hits + 1 } })) :=
  c4_get_semantics LayerCache.initCache "kx" 0 (by decide)
    cacheExpFix "k1" 4000 ⟨1, 0, 100⟩ (by decide) (by decide) (by decide) (by decide)
    cacheFreshFix "k2" 200 ⟨2, 0, 100⟩ (by decide) (by decide)

/-- **C6** (counterexample) — with `"motorway"` mapped to 1.2 in the core
width map but absent from the casing width map, `classify_edge` resolves the
casing width to 1.2 (the resolved core width), not to the fixed default width
constant 0.4 as the claim states. -/
theorem c6_casing_fallback_counterexample :
    dictGet partialWidthStyle.road_casing_widths
        (roadClassOf (.strv "motorway")) = none ∧
    (classify_edge theme0 partialWidthStyle (.strv "motorway")).casing_width = 12/10 ∧
    (classify_edge theme0 partialWidthStyle (.strv "motorway")).casing_width ≠
      ROAD_WIDTH_DEFAULT := by
  refine ⟨rfl, ?_, ?_⟩
  · simp [classify_edge, roadClassOf, normalizeHighway, HIGHWAY_CLASS_MAP,
      dictGet, partialWidthStyle]
  · simp only [classify_edge, roadClassOf, normalizeHighway, HIGHWAY_CLASS_MAP,
      dictGet, partialWidthStyle, ROAD_WIDTH_DEFAULT]
    norm_num

/-- **C6** (amended) — `classify_edge` resolves the core width from the
style's per-class core width map with the fixed default width constant as
fallback, and the casing width from the per-class casing width map with the
*resolved core width* (not the default constant) as fallback. -/
theorem c6_width_fallback_amended (theme : Theme) (style : StyleConfig)
    (tag : OSMHighwayValue) (w : ℚ)
    (hcore : dictGet style.road_core_widths (roadClassOf tag) = some w)
    (hcas : dictGet style.road_casing_widths (roadClassOf tag) = none)
    (theme2 : Theme) (style2 : StyleConfig) (tag2 : OSMHighwayValue) (w2 : ℚ)
    (hcore2 : dictGet style2.road_core_widths (roadClassOf tag2) = none)
    (hcas2 : dictGet style2.road_casing_widths (roadClassOf tag2) = some w2) :
    ((classify_edge theme style tag).core_width = w ∧
      (classify_edge theme style tag).casing_width = w ∧
      (classify_edge theme2 style2 tag2).core_width = ROAD_WIDTH_DEFAULT ∧
      (classify_edge theme2 style2 tag2).casing_width = w2) := by
  refine ⟨?_, ?_, ?_, ?_⟩ <;>
    simp [classify_edge, hcore, hcas, hcore2, hcas2]

/-- Witness for the amended C6 at concrete styles exercising all four
fallback combinations. -/
theorem c6_width_fallback_amended_witness :
    ((classify_edge theme0 partialWidthStyle (.strv "motorway")).core_width = 12/10 ∧
      (classify_edge theme0 partialWidthStyle (.strv "motorway")).casing_width = 12/10 ∧
      (classify_edge theme0 casingOnlyStyle (.strv "residential")).core_width =
        ROAD_WIDTH_DEFAULT ∧
      (classify_edge theme0 casingOnlyStyle (.strv "residential")).casing_width = 7/10) :=
  c6_width_fallback_amended theme0 partialWidthStyle (.strv "motorway") (12/10)
    (by simp [partialWidthStyle, roadClassOf, normalizeHighway, HIGHWAY_CLASS_MAP, dictGet])
    rfl
    theme0 casingOnlyStyle (.strv "residential") (7/10) rfl
    (by simp [casingOnlyStyle, roadClassOf, normalizeHighway, HIGHWAY_CLASS_MAP, dictGet])

/-- **C1** (code bug) — at a street network holding one residential edge plus
railway lines, `build_layers` emits `roads_residential_casing` at zorder 8 and
`roads_residential_core` at zorder 9, while the railways layer sits at zorder
`ZOrder.RAILWAYS = 8`: the railways layer is not strictly above all road
layers (it ties the residential casing and paints below the residential core),
contradicting the claim and the source's own `ZOrder` comment. -/
theorem c1_railways_zorder_code_bug :
    (buildLayersFrom theme0 defaultStyleConfig residentialRailData).1.map
        (fun l => (l.name, l.zorder)) =
      [("roads_residential_casing", (8 : ℚ)), ("roads_residential_core", 9),
       ("railways", 8)] ∧
    ¬ ((9 : ℚ) < ZOrder.RAILWAYS) := by
  constructor
  · have hpairs : (buildLayersFrom theme0 defaultStyleConfig residentialRailData).1.map
        (fun l => (l.name, l.zorder)) =
      [("roads_residential_casing", ZOrder.ROADS + ((2:ℕ):ℚ) * 2),
       ("roads_residential_core", ZOrder.ROADS + ((2:ℕ):ℚ) * 2 + 1),
       ("railways", ZOrder.RAILWAYS)] := by rfl
    rw [hpairs]
    norm_num [ZOrder.ROADS, ZOrder.RAILWAYS]
  · norm_num [ZOrder.RAILWAYS]

/-- The non-road, non-railway layer names that can appear before the road
stage of `build_layers` runs. -/
def NONROAD_LAYER_NAMES : List String :=
  ["water", "waterways_river", "waterways_canal", "waterways_stream",
   "waterways_other", "waterways", "parks"]

/-- Every water-polygon layer carries a name from the non-road name list. -/
theorem waterLayers_names (theme : Theme) (wp : Option (List String)) :
    ((waterLayers theme wp).all fun l => NONROAD_LAYER_NAMES.contains l.name) = true := by
  cases wp with
  | none => rfl
  | some w =>
      by_cases hw : w.isEmpty
      · simp [waterLayers, hw]
      · simp [waterLayers, hw, NONROAD_LAYER_NAMES]

/-- Every linear-waterways layer carries a name from the non-road name list. -/
theorem waterwaysLayers_names (theme : Theme) (ww : Option WaterwaysFrame) :
    ((waterwaysLayers theme ww).all fun l =>
      NONROAD_LAYER_NAMES.contains l.name) = true := by
  rw [List.all_eq_true]
  intro l hl
  cases ww with
  | none => simp [waterwaysLayers] at hl
  | some f =>
      simp only [waterwaysLayers] at hl
      by_cases he : f.rows.isEmpty
      · rw [if_pos he] at hl
        simp at hl
      · rw [if_neg he] at hl
        by_cases hcol : f.hasWaterwayColumn
        · rw [if_pos hcol] at hl
          rcases List.mem_append.mp hl with h | h
          · rw [List.mem_filterMap] at h
            obtain ⟨tw, htw, hres⟩ := h
            by_cases hemp : (f.rows.filter fun r => r.2 = tw.1).isEmpty
            · rw [if_pos hemp] at hres
              exact absurd hres (by simp)
            · rw [if_neg hemp] at hres
              obtain rfl := Option.some.inj hres
              fin_cases htw <;> rfl
          · by_cases hoth : (f.rows.filter fun r =>
                !((WATERWAY_WIDTHS.map Prod.fst).contains r.2)).isEmpty
            · rw [if_pos hoth] at h
              simp at h
            · rw [if_neg hoth] at h
              rcases List.mem_singleton.mp h with rfl
              rfl
        · rw [if_neg hcol] at hl
          rcases List.mem_singleton.mp hl with rfl
          rfl

/-- Every park-polygon layer carries a name from the non-road name list. -/
theorem parksLayers_names (theme : Theme) (pp : Option (List String)) :
    ((parksLayers theme pp).all fun l => NONROAD_LAYER_NAMES.contains l.name) = true := by
  cases pp with
  | none => rfl
  | some p =>
      by_cases hp : p.isEmpty
      · simp [parksLayers, hp]
      · simp [parksLayers, hp, NONROAD_LAYER_NAMES]

/-- **C5** (counterexample) — with a nonempty railway feature set but an empty
edge table, `build_layers` returns only the water and parks layers: the early
return at render.py:1136-1138 happens before the railway block, so no
`railways` layer is emitted, contrary to the claim's enumeration. -/
theorem c5_railways_omitted_counterexample :
    emptyEdgesData.railways_lines = some ["r1"] ∧
    (buildLayersFrom theme0 defaultStyleConfig emptyEdgesData).1.map
        RenderLayer.name = ["water", "parks"] ∧
    "railways" ∉ (buildLayersFrom theme0 defaultStyleConfig emptyEdgesData).1.map
        RenderLayer.name := by
  refine ⟨rfl, ?_, ?_⟩ <;>
    simp [buildLayersFrom, emptyEdgesData, waterLayers, waterwaysLayers,
      parksLayers, theme0]

/-- **C5** (amended) — when the flattened edge table is empty or lacks a
usable `highway` column, the layer assembly raises nothing and returns exactly
the layers built before the road stage (water polygons, linear waterways, park
polygons — the railway block is skipped by the early return) together with the
crop bounds, emitting no road layer and no railways layer. -/
theorem c5_empty_edges_amended (theme : Theme) (style : StyleConfig)
    (d : BuildData)
    (h : (d.edges.rows.isEmpty || !d.edges.hasHighwayColumn) = true) :
    ((buildLayersFrom theme style d).1 =
        waterLayers theme d.water_polys ++ waterwaysLayers theme d.waterways ++
          parksLayers theme d.parks_polys ∧
      (buildLayersFrom theme style d).2 = (d.crop_xlim, d.crop_ylim) ∧
      ((buildLayersFrom theme style d).1.all fun l =>
        NONROAD_LAYER_NAMES.contains l.name) = true) := by
  have hb : buildLayersFrom theme style d =
      (waterLayers theme d.water_polys ++ waterwaysLayers theme d.waterways ++
         parksLayers theme d.parks_polys,
       d.crop_xlim, d.crop_ylim) := by
    unfold buildLayersFrom
    rw [if_pos h]
  refine ⟨by rw [hb], by rw [hb], ?_⟩
  rw [hb]
  simp only [List.all_append, Bool.and_eq_true]
  exact ⟨⟨waterLayers_names theme d.water_polys,
    waterwaysLayers_names theme d.waterways⟩,
    parksLayers_names theme d.parks_polys⟩

/-- Witness for the amended C5 at a concrete input with water, parks and
railway features but an empty edge table. -/
theorem c5_empty_edges_amended_witness :
    ((buildLayersFrom theme0 defaultStyleConfig emptyEdgesData).1 =
        waterLayers theme0 emptyEdgesData.water_polys ++
          waterwaysLayers theme0 emptyEdgesData.waterways ++
          parksLayers theme0 emptyEdgesData.parks_polys ∧
      (buildLayersFrom theme0 defaultStyleConfig emptyEdgesData).2 =
        (emptyEdgesData.crop_xlim, emptyEdgesData.crop_ylim) ∧
      ((buildLayersFrom theme0 defaultStyleConfig emptyEdgesData).1.all fun l =>
        NONROAD_LAYER_NAMES.contains l.name) = true) :=
  c5_empty_edges_amended theme0 defaultStyleConfig emptyEdgesData (by decide)

end MapToPoster
